import Mathlib

/-!
# Verification of the flightwall core against its specification

Shallow embedding of the flightwall backend's core algorithms:

* `backend/ingestion/pipeline.py` — flight-phase detection, observer
  distance enrichment, and the `fetch_and_process` ingestion cycle;
* `backend/ingestion/opensky_client.py` — raw state-vector parsing and
  bounding-box construction;
* `backend/cache.py` — the in-memory `FlightCache` (`get`, `get_all`);
* `backend/analytics/telemetry_analysis.py` — rolling statistics, trend
  classification, and anomaly detection.

Python floats are modelled as exact rationals (`ℚ`); values that the source
computes with transcendental functions (haversine distance, the cosine in the
bounding box) live in `ℝ`.  Python `None` becomes `Option`; Python
truthiness of a float option (`if x:`) is the Boolean `truthyQ`.
-/

namespace Flightwall

/-- Python truthiness of an optional float: `None` and `0.0` are falsy. -/
def truthyQ : Option ℚ → Bool
  | some q => q != 0
  | none => false

/-- Python truthiness of an optional string: `None` and `""` are falsy. -/
def truthyS : Option String → Bool
  | some s => s != ""
  | none => false

/-- `str.lower()` modelled characterwise. -/
def pyLower (s : String) : String := ⟨s.data.map Char.toLower⟩

/-- Drop whitespace from both ends of a character list. -/
def trimChars (l : List Char) : List Char :=
  ((l.dropWhile Char.isWhitespace).reverse.dropWhile Char.isWhitespace).reverse

/-- `str.strip()` modelled characterwise. -/
def pyStrip (s : String) : String := ⟨trimChars s.data⟩

/-! ## Flight phase (`pipeline.detect_flight_phase`) -/

/-- The `FlightPhase` enum of `backend/models/flight_state.py`. -/
inductive FlightPhase where
  | GROUND
  | CLIMB
  | CRUISE
  | DESCENT
  | UNKNOWN
deriving DecidableEq, Repr

/-- The low-altitude ground check of `detect_flight_phase`: barometric
altitude present and under 500, and vertical rate absent or under 1.0 in
magnitude (`baro_altitude is not None and baro_altitude < 500` with the inner
`vertical_rate is None or abs(vertical_rate) < 1.0`). -/
def lowAltitudeGround (vertical_rate baro_altitude : Option ℚ) : Bool :=
  match baro_altitude with
  | some alt => decide (alt < 500) &&
      (match vertical_rate with
       | none => true
       | some vr => decide (|vr| < 1))
  | none => false

/-- `pipeline.detect_flight_phase`, translated clause for clause. -/
def detect_flight_phase (on_ground : Bool) (vertical_rate baro_altitude : Option ℚ) :
    FlightPhase :=
  if on_ground then .GROUND
  else if lowAltitudeGround vertical_rate baro_altitude then .GROUND
  else
    match vertical_rate with
    | none => .UNKNOWN
    | some vr =>
      if vr > 2.5 then .CLIMB
      else if vr < -2.5 then .DESCENT
      else .CRUISE

/-- The phase cascade exactly as claim C1 words it: the taxi-suppression
branch fires only when the vertical rate is present and `|vertical_rate| <
1.0`; an absent vertical rate always reaches the UNKNOWN branch.  Written
from the claim's sentence, to be compared with `detect_flight_phase`. -/
def claimedPhaseC1 (on_ground : Bool) (vertical_rate baro_altitude : Option ℚ) :
    FlightPhase :=
  if on_ground then .GROUND
  else if (match baro_altitude, vertical_rate with
           | some alt, some vr => decide (alt < 500) && decide (|vr| < 1)
           | _, _ => false) then .GROUND
  else
    match vertical_rate with
    | none => .UNKNOWN
    | some vr =>
      if vr > 2.5 then .CLIMB
      else if vr < -2.5 then .DESCENT
      else .CRUISE

/-- The phase cascade as amended: the taxi-suppression branch also fires when
the vertical rate is absent (matching the source's
`vertical_rate is None or abs(vertical_rate) < 1.0`). -/
def amendedPhaseC1 (on_ground : Bool) (vertical_rate baro_altitude : Option ℚ) :
    FlightPhase :=
  if on_ground then .GROUND
  else if (match baro_altitude, vertical_rate with
           | some alt, some vr => decide (alt < 500) && decide (|vr| < 1)
           | some alt, none => decide (alt < 500)
           | none, _ => false) then .GROUND
  else
    match vertical_rate with
    | none => .UNKNOWN
    | some vr =>
      if vr > 2.5 then .CLIMB
      else if vr < -2.5 then .DESCENT
      else .CRUISE

/-- C1 counterexample: a frame not on ground, with no vertical rate and a low
barometric altitude (100) — the source classifies it GROUND (the taxi branch
accepts an absent vertical rate), while the claim's cascade, which requires
`|vertical_rate| < 1.0` in the taxi branch, classifies it UNKNOWN. -/
theorem C1_phase_cascade_counterexample :
    detect_flight_phase false none (some 100) = FlightPhase.GROUND ∧
    claimedPhaseC1 false none (some 100) = FlightPhase.UNKNOWN ∧
    decide (FlightPhase.GROUND = FlightPhase.UNKNOWN) = false := by
  refine ⟨?_, ?_, rfl⟩ <;>
    norm_num [detect_flight_phase, claimedPhaseC1, lowAltitudeGround]

/-- C1 (amended): the flight phase is decided by the cascade with the taxi
branch also firing when the vertical rate is absent; in particular a frame
with altitude 10000, vertical rate 3.0 and ground flag false is CLIMB, and a
frame with the ground flag set is GROUND. -/
theorem C1_phase_cascade :
    (∀ g vr alt, detect_flight_phase g vr alt = amendedPhaseC1 g vr alt) ∧
    detect_flight_phase false (some 3) (some 10000) = FlightPhase.CLIMB ∧
    (∀ vr alt, detect_flight_phase true vr alt = FlightPhase.GROUND) := by
  refine ⟨fun g vr alt => ?_, ?_, fun vr alt => ?_⟩
  · cases vr <;> cases alt <;>
      simp [detect_flight_phase, amendedPhaseC1, lowAltitudeGround]
  · norm_num [detect_flight_phase, lowAltitudeGround]
  · simp [detect_flight_phase]

/-! ## Anomaly detection (`telemetry_analysis.TelemetryAnalyzer._detect_anomalies`) -/

/-- The `RollingStats` dataclass of `telemetry_analysis.py` (mean, std, min,
max, count; the `trend` field defaults to UNKNOWN and is never set by the
analyzer). -/
structure RollingStats where
  mean : ℚ
  std : ℚ
  min_val : ℚ
  max_val : ℚ
  count : ℕ
deriving Repr

/-- One z-score anomaly block of `_detect_anomalies`: the altitude and the
speed checks are this same code with different inputs.  `stats = none` models
a metric whose `RollingStats` is absent, `latest = none` a NaN latest
sample. -/
def zscore_anomaly (threshold : ℚ) (stats : Option RollingStats) (latest : Option ℚ) :
    Bool :=
  match stats, latest with
  | some s, some x =>
    if s.std > 0 then decide (|x - s.mean| / s.std > threshold) else false
  | _, _ => false

/-- The vertical-rate block of `_detect_anomalies`: the absolute magnitude
must exceed the physical threshold 15.0 m/s before the z-score check runs. -/
def vertical_rate_anomaly (threshold : ℚ) (stats : Option RollingStats)
    (latest : Option ℚ) : Bool :=
  match stats, latest with
  | some s, some x =>
    if |x| > 15 then
      (if s.std > 0 then decide (|x - s.mean| / s.std > threshold) else false)
    else false
  | _, _ => false

/-- C2: with rolling statistics present and a finite latest sample, a zero
rolling standard deviation never flags; the altitude/speed flag is set exactly
when the z-score `|latest − mean| / std` exceeds the threshold (given the
nonnegative std a real standard deviation has); the vertical-rate flag is set
exactly when additionally `|latest| > 15`; and at mean 1000, std 10,
threshold 2.5, latest 1026 (z = 2.6) is flagged while 1024 (z = 2.4) is
not. -/
theorem C2_anomaly_zscore :
    (∀ thr : ℚ, ∀ s : RollingStats, ∀ x : ℚ, s.std = 0 →
      zscore_anomaly thr (some s) (some x) = false ∧
      vertical_rate_anomaly thr (some s) (some x) = false) ∧
    (∀ thr : ℚ, ∀ s : RollingStats, ∀ x : ℚ, 0 ≤ s.std → s.std ≠ 0 →
      (zscore_anomaly thr (some s) (some x) = true ↔
        |x - s.mean| / s.std > thr)) ∧
    (∀ thr : ℚ, ∀ s : RollingStats, ∀ x : ℚ, 0 ≤ s.std → s.std ≠ 0 →
      (vertical_rate_anomaly thr (some s) (some x) = true ↔
        |x| > 15 ∧ |x - s.mean| / s.std > thr)) ∧
    zscore_anomaly 2.5 (some ⟨1000, 10, 0, 0, 0⟩) (some 1026) = true ∧
    zscore_anomaly 2.5 (some ⟨1000, 10, 0, 0, 0⟩) (some 1024) = false := by
  refine ⟨fun thr s x h0 => ?_, fun thr s x hnn hne => ?_,
    fun thr s x hnn hne => ?_, ?_, ?_⟩
  · simp [zscore_anomaly, vertical_rate_anomaly, h0]
  · have hpos : s.std > 0 := lt_of_le_of_ne hnn (Ne.symm hne)
    simp [zscore_anomaly, hpos]
  · have hpos : s.std > 0 := lt_of_le_of_ne hnn (Ne.symm hne)
    simp [vertical_rate_anomaly, hpos, and_comm]
  · norm_num [zscore_anomaly]
  · norm_num [zscore_anomaly]

/-- C2 witness: the hypotheses of `C2_anomaly_zscore` discharged at std 10
(nonnegative and nonzero) and std 0, latest 1026, threshold 2.5. -/
theorem C2_anomaly_zscore_witness :
    zscore_anomaly 2.5 (some ⟨1000, 0, 0, 0, 0⟩) (some 1026) = false ∧
    (zscore_anomaly 2.5 (some ⟨1000, 10, 0, 0, 0⟩) (some 1026) = true ↔
      |(1026 : ℚ) - 1000| / 10 > 2.5) := by
  constructor
  · exact (C2_anomaly_zscore.1 2.5 ⟨1000, 0, 0, 0, 0⟩ 1026 rfl).1
  · exact C2_anomaly_zscore.2.1 2.5 ⟨1000, 10, 0, 0, 0⟩ 1026 (by norm_num) (by norm_num)

/-! ## Trend classification (`telemetry_analysis.TelemetryAnalyzer._compute_trend`) -/

/-- The `TrendDirection` enum of `telemetry_analysis.py`. -/
inductive TrendDirection where
  | INCREASING
  | STABLE
  | DECREASING
  | UNKNOWN
deriving DecidableEq, Repr

/-- The valid (timestamp, value) pairs after the NaN mask `~np.isnan(values)`
is applied to both arrays; a NaN value is modelled as `none`. -/
def validPairs (timestamps : List ℚ) (values : List (Option ℚ)) : List (ℚ × ℚ) :=
  (timestamps.zip values).filterMap fun p =>
    match p.2 with
    | some v => some (p.1, v)
    | none => none

/-- The degree-1 least-squares slope that `np.polyfit(t, v, 1)` returns,
written through the normal equations: `(n Σtv − Σt Σv) / (n Σt² − (Σt)²)`;
`none` when the system is degenerate (zero denominator), modelling the
`LinAlgError` branch. -/
def lsSlope (pts : List (ℚ × ℚ)) : Option ℚ :=
  let n : ℚ := pts.length
  let st := (pts.map Prod.fst).sum
  let sv := (pts.map Prod.snd).sum
  let stt := (pts.map fun p => p.1 * p.1).sum
  let stv := (pts.map fun p => p.1 * p.2).sum
  if n * stt - st * st = 0 then none
  else some ((n * stv - st * sv) / (n * stt - st * st))

/-- `np.ptp`: peak-to-peak range (max − min) of a value list. -/
def ptp (l : List ℚ) : ℚ :=
  match l with
  | [] => 0
  | x :: xs => xs.foldl max x - xs.foldl min x

/-- `TelemetryAnalyzer._compute_trend`: filter NaNs, require `min_samples`
valid points, shift timestamps by the first one, fit the least-squares line,
normalize the slope by the peak-to-peak range, classify.  (With the empty
list and `min_samples = 0` the source would fault indexing `t[0]`; the model
returns UNKNOWN there.) -/
def compute_trend (min_samples : ℕ) (trend_threshold : ℚ)
    (timestamps : List ℚ) (values : List (Option ℚ)) : TrendDirection :=
  let pts := validPairs timestamps values
  if pts.length < min_samples then .UNKNOWN
  else
    match pts with
    | [] => .UNKNOWN
    | p0 :: _ =>
      match lsSlope (pts.map fun p => (p.1 - p0.1, p.2)) with
      | none => .UNKNOWN
      | some slope =>
        let r := ptp (pts.map Prod.snd)
        let ns := if r > 0 then slope / r else 0
        if ns > trend_threshold then .INCREASING
        else if ns < -trend_threshold then .DECREASING
        else .STABLE

/-- Mean of the timestamps of a point list (for the textbook least-squares
slope the spec describes). -/
def tmean (pts : List (ℚ × ℚ)) : ℚ := (pts.map Prod.fst).sum / pts.length

/-- Mean of the values of a point list. -/
def vmean (pts : List (ℚ × ℚ)) : ℚ := (pts.map Prod.snd).sum / pts.length

/-- Numerator of the textbook least-squares slope: `Σ (t − t̄)(v − v̄)`. -/
def covSlopeNum (pts : List (ℚ × ℚ)) : ℚ :=
  (pts.map fun p => (p.1 - tmean pts) * (p.2 - vmean pts)).sum

/-- Denominator of the textbook least-squares slope: `Σ (t − t̄)²`. -/
def covSlopeDen (pts : List (ℚ × ℚ)) : ℚ :=
  (pts.map fun p => (p.1 - tmean pts) * (p.1 - tmean pts)).sum

theorem sum_map_sub_mul_sub (pts : List (ℚ × ℚ)) (a b : ℚ) :
    (pts.map fun p => (p.1 - a) * (p.2 - b)).sum =
      (pts.map fun p => p.1 * p.2).sum - a * (pts.map Prod.snd).sum
        - b * (pts.map Prod.fst).sum + pts.length * a * b := by
  induction pts with
  | nil => simp
  | cons p rest ih =>
    simp only [List.map_cons, List.sum_cons, ih, List.length_cons]
    push_cast
    ring

/-- The normal-equations slope the code computes is the textbook
covariance-over-variance least-squares slope the spec describes. -/
theorem lsSlope_eq_covSlope (pts : List (ℚ × ℚ)) (hne : pts ≠ []) :
    (covSlopeDen pts = 0 → lsSlope pts = none) ∧
    (covSlopeDen pts ≠ 0 → lsSlope pts = some (covSlopeNum pts / covSlopeDen pts)) := by
  have hn : (pts.length : ℚ) ≠ 0 := by
    exact_mod_cast Nat.cast_ne_zero.mpr (List.length_pos.mpr hne).ne'
  have hnum : covSlopeNum pts =
      ((pts.length : ℚ) * (pts.map fun p => p.1 * p.2).sum
        - (pts.map Prod.fst).sum * (pts.map Prod.snd).sum) / pts.length := by
    rw [covSlopeNum, sum_map_sub_mul_sub, tmean, vmean]
    field_simp
    ring
  have hden : covSlopeDen pts =
      ((pts.length : ℚ) * (pts.map fun p => p.1 * p.1).sum
        - (pts.map Prod.fst).sum * (pts.map Prod.fst).sum) / pts.length := by
    have := sum_map_sub_mul_sub (pts.map fun p => (p.1, p.1)) (tmean pts) (tmean pts)
    simp only [List.map_map, Function.comp] at this
    rw [covSlopeDen]
    have heq : (pts.map fun p => (p.1 - tmean pts) * (p.1 - tmean pts)).sum =
        (pts.map fun p => p.1 * p.1).sum - tmean pts * (pts.map Prod.fst).sum
          - tmean pts * (pts.map Prod.fst).sum
          + pts.length * tmean pts * tmean pts := by
      simpa using this
    rw [heq, tmean]
    field_simp
    ring
  constructor
  · intro h0
    have : (pts.length : ℚ) * (pts.map fun p => p.1 * p.1).sum
        - (pts.map Prod.fst).sum * (pts.map Prod.fst).sum = 0 := by
      have := hden ▸ h0
      field_simp at this
      exact this
    simp [lsSlope, this]
  · intro hne0
    have hd : (pts.length : ℚ) * (pts.map fun p => p.1 * p.1).sum
        - (pts.map Prod.fst).sum * (pts.map Prod.fst).sum ≠ 0 := by
      intro h
      exact hne0 (by rw [hden, h, zero_div])
    rw [lsSlope]
    simp only [hd, if_neg hd]
    rw [hnum, hden]
    have : ∀ x y : ℚ, x / (pts.length : ℚ) / (y / (pts.length : ℚ)) = x / y := by
      intro x y
      rw [div_div_div_comm, div_self hn, div_one]
    rw [this]
    simp

/-- C3: trend classification — fewer than `min_samples` valid points gives
UNKNOWN; a degenerate fit gives UNKNOWN; otherwise, with `s` the textbook
least-squares slope (covariance over variance of the shifted timestamps) and
`r` the peak-to-peak range, the result classifies `s / r` against the
threshold, the normalized slope being 0 when `r = 0`.  A constant series is
STABLE and the 10-sample series rising 10 per sample is INCREASING. -/
theorem C3_trend_classification :
    (∀ (m : ℕ) (thr : ℚ) ts vs, (validPairs ts vs).length < m →
      compute_trend m thr ts vs = TrendDirection.UNKNOWN) ∧
    (∀ (m : ℕ) (thr : ℚ) ts vs p0 rest, validPairs ts vs = p0 :: rest →
      lsSlope ((p0 :: rest).map fun p => (p.1 - p0.1, p.2)) = none →
      compute_trend m thr ts vs = TrendDirection.UNKNOWN) ∧
    (∀ (m : ℕ) (thr : ℚ) ts vs p0 rest, validPairs ts vs = p0 :: rest →
      ¬((p0 :: rest).length < m) →
      covSlopeDen ((p0 :: rest).map fun p => (p.1 - p0.1, p.2)) ≠ 0 →
      compute_trend m thr ts vs =
        (if (if ptp ((p0 :: rest).map Prod.snd) > 0 then
              (covSlopeNum ((p0 :: rest).map fun p => (p.1 - p0.1, p.2)) /
                covSlopeDen ((p0 :: rest).map fun p => (p.1 - p0.1, p.2))) /
                ptp ((p0 :: rest).map Prod.snd)
            else 0) > thr then TrendDirection.INCREASING
         else if (if ptp ((p0 :: rest).map Prod.snd) > 0 then
              (covSlopeNum ((p0 :: rest).map fun p => (p.1 - p0.1, p.2)) /
                covSlopeDen ((p0 :: rest).map fun p => (p.1 - p0.1, p.2))) /
                ptp ((p0 :: rest).map Prod.snd)
            else 0) < -thr then TrendDirection.DECREASING
         else TrendDirection.STABLE)) ∧
    compute_trend 5 (1/10) [0, 1, 2, 3, 4, 5, 6, 7, 8, 9]
      ([1000, 1000, 1000, 1000, 1000, 1000, 1000, 1000, 1000, 1000].map some) =
      TrendDirection.STABLE ∧
    compute_trend 5 (1/10) [0, 1, 2, 3, 4, 5, 6, 7, 8, 9]
      ([1000, 1010, 1020, 1030, 1040, 1050, 1060, 1070, 1080, 1090].map some) =
      TrendDirection.INCREASING := by
  refine ⟨fun m thr ts vs h => ?_, fun m thr ts vs p0 rest hpts hdeg => ?_,
    fun m thr ts vs p0 rest hpts hlen hden => ?_, ?_, ?_⟩
  · simp [compute_trend, h]
  · rw [compute_trend]
    simp only [hpts]
    simp only [List.map_cons, sub_self] at hdeg
    simp [hdeg]
  · have hne : ((p0 :: rest).map fun p => (p.1 - p0.1, p.2)) ≠ [] := by simp
    have hsl := (lsSlope_eq_covSlope _ hne).2 hden
    rw [compute_trend]
    simp only [hpts]
    simp only [List.map_cons, sub_self] at hsl
    simp [hlen, hsl]
    intro h
    exact absurd h (by simpa using hlen)
  · have hv : validPairs [0, 1, 2, 3, 4, 5, 6, 7, 8, 9]
        ([1000, 1000, 1000, 1000, 1000, 1000, 1000, 1000, 1000, 1000].map some) =
        [((0 : ℚ), (1000 : ℚ)), (1, 1000), (2, 1000), (3, 1000), (4, 1000),
         (5, 1000), (6, 1000), (7, 1000), (8, 1000), (9, 1000)] := rfl
    simp only [compute_trend, hv]
    norm_num [lsSlope, ptp, List.foldl, max_def, min_def]
  · have hv : validPairs [0, 1, 2, 3, 4, 5, 6, 7, 8, 9]
        ([1000, 1010, 1020, 1030, 1040, 1050, 1060, 1070, 1080, 1090].map some) =
        [((0 : ℚ), (1000 : ℚ)), (1, 1010), (2, 1020), (3, 1030), (4, 1040),
         (5, 1050), (6, 1060), (7, 1070), (8, 1080), (9, 1090)] := rfl
    simp only [compute_trend, hv]
    norm_num [lsSlope, ptp, List.foldl, max_def, min_def]

/-! ## State vectors (`opensky_client.StateVector`) -/

/-- The parsed state-vector dataclass of `opensky_client.py`; Python floats
are `ℚ`, optional fields are `Option`. -/
structure StateVector where
  icao24 : String
  callsign : Option String
  origin_country : Option String
  time_position : Option ℚ
  last_contact : Option ℚ
  longitude : Option ℚ
  latitude : Option ℚ
  baro_altitude : Option ℚ
  on_ground : Bool
  velocity : Option ℚ
  true_track : Option ℚ
  vertical_rate : Option ℚ
  geo_altitude : Option ℚ
  squawk : Option String
  spi : Bool
  position_source : Option ℚ
deriving Repr

/-- `StateVector.has_position`: latitude and longitude both `is not None`
(an explicit None check, not truthiness). -/
def StateVector.has_position (sv : StateVector) : Bool :=
  sv.latitude.isSome && sv.longitude.isSome

/-! ## Haversine distance and observer enrichment (`pipeline.py`) -/

/-- `math.radians`. -/
noncomputable def radians (degrees : ℝ) : ℝ := degrees * Real.pi / 180

/-- `math.atan2` on the upper arguments the haversine formula produces
(standard atan2 case split). -/
noncomputable def atan2 (y x : ℝ) : ℝ :=
  if 0 < x then Real.arctan (y / x)
  else if x < 0 ∧ 0 ≤ y then Real.arctan (y / x) + Real.pi
  else if x < 0 ∧ y < 0 then Real.arctan (y / x) - Real.pi
  else if x = 0 ∧ 0 < y then Real.pi / 2
  else if x = 0 ∧ y < 0 then -(Real.pi / 2)
  else 0

/-- `pipeline.haversine_distance`: great-circle distance in km over the
Earth radius 6371. -/
noncomputable def haversine_distance (lat1 lon1 lat2 lon2 : ℝ) : ℝ :=
  let lat1_rad := radians lat1
  let lat2_rad := radians lat2
  let delta_lat := radians (lat2 - lat1)
  let delta_lon := radians (lon2 - lon1)
  let a := Real.sin (delta_lat / 2) ^ 2 +
    Real.cos lat1_rad * Real.cos lat2_rad * Real.sin (delta_lon / 2) ^ 2
  let c := 2 * atan2 (Real.sqrt a) (Real.sqrt (1 - a))
  6371 * c

/-- The distance-from-observer block that both `_enrich_state` and
`_batch_insert_history` repeat verbatim:
`if self.observer_location and sv.latitude and sv.longitude:` — note Python
truthiness on the coordinates (a coordinate of exactly 0.0 is falsy; the
observer tuple is truthy whenever it is set). -/
noncomputable def observer_distance (observer : Option (ℚ × ℚ)) (sv : StateVector) :
    Option ℝ :=
  match observer with
  | some o =>
    if truthyQ sv.latitude && truthyQ sv.longitude then
      some (haversine_distance (o.1 : ℝ) (o.2 : ℝ)
        ((sv.latitude.getD 0 : ℚ) : ℝ) ((sv.longitude.getD 0 : ℚ) : ℝ))
    else none
  | none => none

/-- One row of the `FlightState` current-state table as the enrichment dict
of `_enrich_state` fills it. -/
structure CurrentRow where
  icao24 : String
  callsign : Option String
  origin_country : Option String
  latitude : Option ℚ
  longitude : Option ℚ
  baro_altitude : Option ℚ
  geo_altitude : Option ℚ
  velocity : Option ℚ
  true_track : Option ℚ
  vertical_rate : Option ℚ
  on_ground : Bool
  squawk : Option String
  spi : Bool
  position_source : Option ℚ
  time_position : Option ℚ
  last_contact : Option ℚ
  flight_phase : FlightPhase
  distance_km : Option ℝ
  updated_at : ℚ

/-- `IngestionPipeline._enrich_state` (with `now` the wall clock the source
reads from `datetime.now`). -/
noncomputable def enrich_state (observer : Option (ℚ × ℚ)) (now : ℚ)
    (sv : StateVector) : CurrentRow where
  icao24 := sv.icao24
  callsign := sv.callsign
  origin_country := sv.origin_country
  latitude := sv.latitude
  longitude := sv.longitude
  baro_altitude := sv.baro_altitude
  geo_altitude := sv.geo_altitude
  velocity := sv.velocity
  true_track := sv.true_track
  vertical_rate := sv.vertical_rate
  on_ground := sv.on_ground
  squawk := sv.squawk
  spi := sv.spi
  position_source := sv.position_source
  time_position := sv.time_position
  last_contact := sv.last_contact
  flight_phase := detect_flight_phase sv.on_ground sv.vertical_rate sv.baro_altitude
  distance_km := observer_distance observer sv
  updated_at := now

/-- One appended row of the `PositionHistory` table as
`_batch_insert_history` builds it; `timestamp` is
`sv.time_position or api_time` (truthiness: a zero or absent position time
falls back to the API time). -/
structure HistoryRow where
  icao24 : String
  callsign : Option String
  timestamp : ℚ
  latitude : Option ℚ
  longitude : Option ℚ
  baro_altitude : Option ℚ
  geo_altitude : Option ℚ
  velocity : Option ℚ
  true_track : Option ℚ
  vertical_rate : Option ℚ
  on_ground : Bool
  position_source : Option ℚ
  distance_km : Option ℝ

/-- The record `_batch_insert_history` builds for one state vector. -/
noncomputable def history_row (observer : Option (ℚ × ℚ)) (api_time : ℚ)
    (sv : StateVector) : HistoryRow where
  icao24 := sv.icao24
  callsign := sv.callsign
  timestamp := if truthyQ sv.time_position then sv.time_position.getD 0 else api_time
  latitude := sv.latitude
  longitude := sv.longitude
  baro_altitude := sv.baro_altitude
  geo_altitude := sv.geo_altitude
  velocity := sv.velocity
  true_track := sv.true_track
  vertical_rate := sv.vertical_rate
  on_ground := sv.on_ground
  position_source := sv.position_source
  distance_km := observer_distance observer sv

/-! ## The ingestion cycle (`pipeline.IngestionPipeline.fetch_and_process`) -/

/-- `INSERT ... ON CONFLICT(icao24) DO UPDATE`, one row at a time over the
current-state table (keyed by `icao24`). -/
def upsert_row (table : List CurrentRow) (row : CurrentRow) : List CurrentRow :=
  if table.any fun r => r.icao24 = row.icao24 then
    table.map fun r => if r.icao24 = row.icao24 then row else r
  else table ++ [row]

/-- `_batch_upsert_states`: fold the enriched rows into the table. -/
def upsert_rows (table : List CurrentRow) (rows : List CurrentRow) : List CurrentRow :=
  rows.foldl upsert_row table

/-- `_cleanup_stale_data`: delete current rows whose `last_contact` is below
the staleness cutoff (a SQL `<`, so a NULL `last_contact` never matches) and
history rows older than the retention cutoff. -/
def cleanup_stale_data (stale_cutoff history_cutoff : ℚ)
    (current : List CurrentRow) (history : List HistoryRow) :
    List CurrentRow × List HistoryRow :=
  (current.filter fun r =>
      match r.last_contact with
      | some t => ¬ t < stale_cutoff
      | none => true,
    history.filter fun h => ¬ h.timestamp < history_cutoff)

/-- What one call of `fetch_and_process` would obtain from
`OpenSkyClient.get_states_by_location`: a failure (any raised
`requests` error) or `(api_time, states)`. -/
inductive FetchOutcome where
  | failure
  | success (api_time : ℚ) (states : List StateVector)

/-- The mutable pipeline fields `fetch_and_process` touches, plus the two
storage tables. -/
structure PipelineState where
  observer_location : Option (ℚ × ℚ)
  fetch_count : ℕ
  error_count : ℕ
  current_state : List CurrentRow
  history : List HistoryRow

/-- `IngestionPipeline.fetch_and_process`, one cycle: the returned triple is
(return value, new state, whether the source adapter was called).  `now` is
the wall clock; `stale_cutoff`/`history_cutoff` the cleanup thresholds the
source derives from config. -/
noncomputable def fetch_and_process (st : PipelineState) (fetch : FetchOutcome)
    (now stale_cutoff history_cutoff : ℚ) : ℤ × PipelineState × Bool :=
  match st.observer_location with
  | none => (-1, st, false)
  | some _ =>
    match fetch with
    | .failure => (-1, { st with error_count := st.error_count + 1 }, true)
    | .success api_time states =>
      if states.isEmpty then (0, st, true)
      else
        let st1 := { st with fetch_count := st.fetch_count + 1 }
        let enriched := states.map (enrich_state st.observer_location now)
        let current := upsert_rows st1.current_state enriched
        let history := st1.history ++ states.map (history_row st.observer_location api_time)
        let cleaned :=
          if st1.fetch_count % 30 = 0 then
            cleanup_stale_data stale_cutoff history_cutoff current history
          else (current, history)
        (states.length,
          { st1 with current_state := cleaned.1, history := cleaned.2 }, true)

/-- A concrete state vector on the equator (latitude exactly 0.0) with a
longitude present, used by the C4/C10 scenarios. -/
def equatorSV : StateVector where
  icao24 := "a1"
  callsign := some "TEST1"
  origin_country := some "X"
  time_position := some 100
  last_contact := some 100
  longitude := some 50
  latitude := some 0
  baro_altitude := some 10000
  on_ground := false
  velocity := some 200
  true_track := some 90
  vertical_rate := some 3
  geo_altitude := some 10100
  squawk := some "7000"
  spi := false
  position_source := some 0

/-- C4 counterexample: with no observer location configured, one ingestion
cycle returns -1 (the error return code), not the claimed count 0 — even
though the state is untouched and the adapter is never called. -/
theorem C4_no_observer_counterexample :
    fetch_and_process ⟨none, 0, 0, [], []⟩ (.success 100 [equatorSV]) 0 0 0 =
      (-1, ⟨none, 0, 0, [], []⟩, false) ∧
    decide ((-1 : ℤ) = 0) = false := by
  exact ⟨rfl, rfl⟩

/-- C4 (amended): whenever no observer location is configured,
`fetch_and_process` skips the cycle: it returns -1 (the error return code,
not the claimed 0), does not call the source adapter, leaves the
current-state and history tables unchanged, and does not increment the error
counter. -/
theorem C4_no_observer_skips (st : PipelineState) (fetch : FetchOutcome)
    (now stale_cutoff history_cutoff : ℚ)
    (h : st.observer_location = none) :
    fetch_and_process st fetch now stale_cutoff history_cutoff = (-1, st, false) := by
  rw [fetch_and_process.eq_def, h]

/-- C4 witness: the skip branch evaluated at a concrete pipeline state with
no observer, nonzero counters and a pending successful fetch. -/
theorem C4_no_observer_skips_witness :
    fetch_and_process ⟨none, 5, 7, [], []⟩ (.success 100 [equatorSV]) 3 1 2 =
      (-1, ⟨none, 5, 7, [], []⟩, false) :=
  C4_no_observer_skips ⟨none, 5, 7, [], []⟩ (.success 100 [equatorSV]) 3 1 2 rfl

/-- C10: the distance-from-observer field is computed (in both `_enrich_state`
and `_batch_insert_history`) exactly when the observer is set and both
coordinates are truthy; a coordinate equal to exactly 0.0 therefore leaves
the distance absent even though the frame has a position and the observer is
configured. -/
theorem C10_distance_truthiness :
    (∀ obs sv, (observer_distance obs sv).isSome =
      (obs.isSome && truthyQ sv.latitude && truthyQ sv.longitude)) ∧
    (∀ obs (now : ℚ) sv, (enrich_state obs now sv).distance_km = observer_distance obs sv) ∧
    (∀ obs (t : ℚ) sv, (history_row obs t sv).distance_km = observer_distance obs sv) ∧
    (∀ (o : ℚ × ℚ) sv, sv.latitude = some 0 → sv.longitude.isSome = true →
      sv.has_position = true ∧ observer_distance (some o) sv = none) ∧
    (∀ (o : ℚ × ℚ) sv, sv.longitude = some 0 → sv.latitude.isSome = true →
      sv.has_position = true ∧ observer_distance (some o) sv = none) ∧
    equatorSV.has_position = true ∧
    observer_distance (some (40, -74)) equatorSV = none := by
  refine ⟨fun obs sv => ?_, fun obs now sv => rfl, fun obs t sv => rfl,
    fun o sv hlat hlon => ?_, fun o sv hlon hlat => ?_, rfl, ?_⟩
  · match obs with
    | none => simp [observer_distance]
    | some o =>
      cases h : truthyQ sv.latitude && truthyQ sv.longitude <;>
        simp [observer_distance, h]
  · constructor
    · simp [StateVector.has_position, hlat, hlon]
    · simp [observer_distance, hlat, truthyQ]
  · constructor
    · simp [StateVector.has_position, hlon, hlat]
    · simp [observer_distance, hlon, truthyQ]
  · simp [observer_distance, equatorSV, truthyQ]

/-! ## The flight cache (`cache.FlightCache`) -/

/-- The `CachedFlightState` dataclass of `cache.py`. -/
structure CachedFlightState where
  icao24 : String
  callsign : String
  aircraft_type : Option String
  aircraft_type_desc : Option String
  operator_name : Option String
  latitude : Option ℚ
  longitude : Option ℚ
  distance_km : Option ℚ
  altitude_m : Option ℚ
  velocity_mps : Option ℚ
  heading : Option ℚ
  vertical_rate_mps : Option ℚ
  altitude_ft : Option ℤ
  flight_level : Option String
  speed_kts : Option ℤ
  vertical_rate_fpm : Option ℤ
  on_ground : Bool
  flight_phase : String
  speed_trend : Option String
  altitude_trend : Option String
  is_anomaly : Bool
  last_contact : Option ℚ
  updated_at : ℚ
  cached_at : ℚ

/-- The mutable state of a `FlightCache`: the keyed entry map (a Python dict,
insertion-ordered, unique keys), the TTL, and the hit/miss counters. -/
structure CacheState where
  entries : List (String × CachedFlightState)
  ttl_seconds : ℚ
  hits : ℕ
  misses : ℕ

/-- Dict lookup on the entry map. -/
def lookupEntry (entries : List (String × CachedFlightState)) (key : String) :
    Option CachedFlightState :=
  (entries.find? fun p => p.1 = key).map Prod.snd

/-- `FlightCache.get`: lowercase the id; a present entry younger than the TTL
is a hit; a present entry at or beyond the TTL is deleted and a miss;
anything else is a miss.  `now` models `time.time()`. -/
def FlightCache.get (st : CacheState) (icao24 : String) (now : ℚ) :
    Option CachedFlightState × CacheState :=
  let key := pyLower icao24
  match lookupEntry st.entries key with
  | some entry =>
    if now - entry.cached_at < st.ttl_seconds then
      (some entry, { st with hits := st.hits + 1 })
    else
      (none,
        { st with
          entries := st.entries.filter fun p => !(p.1 == key)
          misses := st.misses + 1 })
  | none => (none, { st with misses := st.misses + 1 })

/-- The sort key of `FlightCache.get_all`:
`x.distance_km if x.distance_km else float('inf')` — Python truthiness, so an
absent distance AND a distance of exactly 0.0 both sort as infinity (`⊤`). -/
def sortKey (e : CachedFlightState) : WithTop ℚ :=
  match e.distance_km with
  | some d => if d = 0 then ⊤ else (d : WithTop ℚ)
  | none => ⊤

/-- `FlightCache.get_all`: all entries (no TTL filtering), sorted ascending
by `sortKey`; the source's stable `list.sort` is modelled by insertion
sort. -/
def FlightCache.get_all (st : CacheState) : List CachedFlightState :=
  (st.entries.map Prod.snd).insertionSort fun a b => sortKey a ≤ sortKey b

/-- `FlightCache.get_airborne`: the non-on-ground entries of `get_all`. -/
def FlightCache.get_airborne (st : CacheState) : List CachedFlightState :=
  (FlightCache.get_all st).filter fun f => !f.on_ground

/-- A test fixture: a cached view with the given id, distance, ground flag
and cache timestamp (remaining payload fields inert). -/
def mkView (icao24 : String) (distance_km : Option ℚ) (on_ground : Bool)
    (cached_at : ℚ) : CachedFlightState where
  icao24 := icao24
  callsign := "N/A"
  aircraft_type := none
  aircraft_type_desc := none
  operator_name := none
  latitude := none
  longitude := none
  distance_km := distance_km
  altitude_m := none
  velocity_mps := none
  heading := none
  vertical_rate_mps := none
  altitude_ft := none
  flight_level := none
  speed_kts := none
  vertical_rate_fpm := none
  on_ground := on_ground
  flight_phase := "unknown"
  speed_trend := none
  altitude_trend := none
  is_anomaly := false
  last_contact := none
  updated_at := 0
  cached_at := cached_at

/-- The ordering claim C5 states for one pair of `get_all` output entries, as
the claim words it ("known distance" = distance present): both distances
known must be non-decreasing, and a known distance must never follow an
absent one. -/
def claimedPairC5 (a b : CachedFlightState) : Bool :=
  match a.distance_km, b.distance_km with
  | some da, some db => decide (da ≤ db)
  | none, some _ => false
  | _, none => true

/-- Claim C5's ordering property over a whole output list. -/
def claimedOrderC5 : List CachedFlightState → Bool
  | [] => true
  | a :: rest => rest.all (claimedPairC5 a) && claimedOrderC5 rest

/-- C5 counterexample: a cache holding an entry at distance exactly 0.0 and
one at distance 5 — `get_all` sorts the 0.0 entry last (Python truthiness
treats 0.0 as falsy, so it gets the infinity key), so two entries with known
distances appear in strictly decreasing order, refuting the claimed
ordering. -/
theorem C5_get_all_counterexample :
    FlightCache.get_all ⟨[("a0", mkView "a0" (some 0) false 0),
        ("a5", mkView "a5" (some 5) false 0)], 5, 0, 0⟩ =
      [mkView "a5" (some 5) false 0, mkView "a0" (some 0) false 0] ∧
    claimedOrderC5 (FlightCache.get_all ⟨[("a0", mkView "a0" (some 0) false 0),
        ("a5", mkView "a5" (some 5) false 0)], 5, 0, 0⟩) = false := by
  have h : FlightCache.get_all ⟨[("a0", mkView "a0" (some 0) false 0),
      ("a5", mkView "a5" (some 5) false 0)], 5, 0, 0⟩ =
      [mkView "a5" (some 5) false 0, mkView "a0" (some 0) false 0] := by
    rw [FlightCache.get_all]
    norm_num [List.insertionSort, List.orderedInsert, sortKey, mkView, top_le_iff]
  refine ⟨h, ?_⟩
  rw [h]
  norm_num [claimedOrderC5, claimedPairC5, mkView]

/-- C5 (amended): `get_all` returns all currently cached entries (a
permutation of the map's values, no TTL filtering), sorted so that whenever a
later entry carries a known **nonzero** distance, every earlier entry also
carries a known nonzero distance that is no larger; consequently entries
whose distance is absent — or exactly zero, which Python truthiness lumps
with absent — sort last. -/
theorem C5_get_all_sorted (st : CacheState) :
    (FlightCache.get_all st).Perm (st.entries.map Prod.snd) ∧
    List.Pairwise
      (fun a b => ∀ db : ℚ, b.distance_km = some db → db ≠ 0 →
        ∃ da : ℚ, a.distance_km = some da ∧ da ≠ 0 ∧ da ≤ db)
      (FlightCache.get_all st) := by
  constructor
  · exact List.perm_insertionSort _ _
  · haveI : IsTotal CachedFlightState (fun a b => sortKey a ≤ sortKey b) :=
      ⟨fun a b => le_total _ _⟩
    haveI : IsTrans CachedFlightState (fun a b => sortKey a ≤ sortKey b) :=
      ⟨fun _ _ _ hab hbc => le_trans hab hbc⟩
    have hs : List.Pairwise (fun a b => sortKey a ≤ sortKey b)
        (FlightCache.get_all st) :=
      List.sorted_insertionSort _ _
    refine hs.imp ?_
    intro a b hab db hdb hdb0
    have hb : sortKey b = (db : WithTop ℚ) := by
      simp [sortKey, hdb, hdb0]
    rw [hb] at hab
    rcases ha : a.distance_km with _ | da
    · have hka : sortKey a = ⊤ := by simp [sortKey, ha]
      rw [hka] at hab
      exact absurd (top_le_iff.mp hab) WithTop.coe_ne_top
    · by_cases h0 : da = 0
      · have hka : sortKey a = ⊤ := by simp [sortKey, ha, h0]
        rw [hka] at hab
        exact absurd (top_le_iff.mp hab) WithTop.coe_ne_top
      · have hka : sortKey a = (da : WithTop ℚ) := by simp [sortKey, ha, h0]
        rw [hka] at hab
        exact ⟨da, rfl, h0, by exact_mod_cast hab⟩

/-- C6: `get` returns the entry exactly when it is present under the
lowercased id and its age is strictly below the TTL; an entry at or beyond
the TTL is removed by the call and `none` is returned.  With TTL 5 and an
entry cached at 100: `get` at 104.9 returns it, `get` at 105.1 returns none
and removes it. -/
theorem C6_cache_get_ttl :
    (∀ st icao24 (now : ℚ) e, (FlightCache.get st icao24 now).1 = some e ↔
      lookupEntry st.entries (pyLower icao24) = some e ∧
        now - e.cached_at < st.ttl_seconds) ∧
    (∀ st icao24 (now : ℚ) e,
      lookupEntry st.entries (pyLower icao24) = some e →
      ¬ now - e.cached_at < st.ttl_seconds →
      (FlightCache.get st icao24 now).1 = none ∧
      lookupEntry (FlightCache.get st icao24 now).2.entries (pyLower icao24) = none) ∧
    (FlightCache.get ⟨[("abc", mkView "abc" none false 100)], 5, 0, 0⟩ "abc" 104.9).1 =
      some (mkView "abc" none false 100) ∧
    (FlightCache.get ⟨[("abc", mkView "abc" none false 100)], 5, 0, 0⟩ "abc" 105.1).1 =
      none ∧
    (FlightCache.get ⟨[("abc", mkView "abc" none false 100)], 5, 0, 0⟩ "abc"
      105.1).2.entries = [] := by
  have hpl : pyLower "abc" = "abc" := rfl
  have hl0 : lookupEntry [("abc", mkView "abc" none false 100)] "abc" =
      some (mkView "abc" none false 100) := rfl
  refine ⟨fun st icao24 now e => ?_, fun st icao24 now e hfound hexp => ?_, ?_, ?_, ?_⟩
  · rw [FlightCache.get]
    rcases hl : lookupEntry st.entries (pyLower icao24) with _ | entry
    · simp
    · by_cases hage : now - entry.cached_at < st.ttl_seconds
      · dsimp only
        rw [if_pos hage]
        constructor
        · intro h
          cases Option.some_inj.mp h
          exact ⟨rfl, hage⟩
        · rintro ⟨he, _⟩
          exact he
      · dsimp only
        rw [if_neg hage]
        constructor
        · intro h
          simp at h
        · rintro ⟨he, hlt⟩
          cases Option.some_inj.mp he
          exact absurd hlt hage
  · rw [FlightCache.get, hfound]
    dsimp only
    rw [if_neg hexp]
    refine ⟨rfl, ?_⟩
    rw [lookupEntry]
    have hnone : List.find? (fun p => decide (p.1 = pyLower icao24))
        (st.entries.filter fun p => !(p.1 == pyLower icao24)) = none := by
      rw [List.find?_eq_none]
      intro x hx
      have := (List.mem_filter.mp hx).2
      simpa using this
    simp [hnone]
  · rw [FlightCache.get, hpl, hl0]
    dsimp only [mkView]
    rw [if_pos (by norm_num : (104.9 : ℚ) - 100 < 5)]
  · rw [FlightCache.get, hpl, hl0]
    dsimp only [mkView]
    rw [if_neg (by norm_num : ¬ (105.1 : ℚ) - 100 < 5)]
  · rw [FlightCache.get, hpl, hl0]
    dsimp only [mkView]
    rw [if_neg (by norm_num : ¬ (105.1 : ℚ) - 100 < 5)]
    simp [List.filter]

/-! ## Rolling statistics and `analyze_flight`
(`telemetry_analysis.TelemetryAnalyzer`) -/

/-- NumPy boolean-mask indexing `arr[mask]`. -/
def applyMask {α : Type} (l : List α) (mask : List Bool) : List α :=
  ((l.zip mask).filter fun p => p.2).map Prod.fst

/-- `np.max` on a rational sample list (0 on the empty list, which the
source only reaches guarded by `min_samples`). -/
def listMax : List ℚ → ℚ
  | [] => 0
  | x :: xs => xs.foldl max x

/-- `np.min` on a rational sample list. -/
def listMin : List ℚ → ℚ
  | [] => 0
  | x :: xs => xs.foldl min x

/-- `np.std` (population standard deviation, ddof 0) of a rational sample
list, as a real. -/
noncomputable def npStd (l : List ℚ) : ℝ :=
  Real.sqrt ((l.map fun x => ((x : ℝ) - ((l.sum / l.length : ℚ) : ℝ)) ^ 2).sum / l.length)

/-- The stats record `_compute_rolling_stats` builds (the `RollingStats`
dataclass with the computed standard deviation, which is a real square
root). -/
structure ComputedRollingStats where
  mean : ℚ
  std : ℝ
  min_val : ℚ
  max_val : ℚ
  count : ℕ

/-- `TelemetryAnalyzer._compute_rolling_stats`: apply the window mask, drop
NaN samples (modelled as `none`), and produce stats only when at least
`min_samples` valid samples remain — otherwise absent, never zeros. -/
noncomputable def compute_rolling_stats (min_samples : ℕ)
    (values : List (Option ℚ)) (window_mask : List Bool) :
    Option ComputedRollingStats :=
  let windowed := applyMask values window_mask
  let valid := windowed.filterMap id
  if valid.length < min_samples then none
  else some {
    mean := valid.sum / valid.length
    std := npStd valid
    min_val := listMin valid
    max_val := listMax valid
    count := valid.length }

/-- The analytics record `analyze_flight` assembles.  The
`_detect_anomalies` pass, which only flips Boolean flags on this record, is
verified separately (`zscore_anomaly`, `vertical_rate_anomaly`). -/
structure FlightAnalytics where
  icao24 : String
  callsign : Option String
  total_samples : ℕ
  window_samples : ℕ
  altitude : Option ComputedRollingStats
  speed : Option ComputedRollingStats
  vertical_rate : Option ComputedRollingStats
  heading : Option ComputedRollingStats
  altitude_trend : TrendDirection
  speed_trend : TrendDirection

/-- `TelemetryAnalyzer.analyze_flight` after the short-TTL result-cache
check, as a function of the fetched retention-window history (ordered by
timestamp): `if not history or len(history) < self.min_samples: return
None`, else build the analytics from the window mask
`timestamps >= now - window_seconds`. -/
noncomputable def analyze_flight (min_samples : ℕ)
    (window_seconds trend_threshold now : ℚ) (icao24 : String)
    (history : List HistoryRow) : Option FlightAnalytics :=
  if history.isEmpty || history.length < min_samples then none
  else
    let timestamps := history.map fun h => h.timestamp
    let mask := timestamps.map fun t => decide (now - window_seconds ≤ t)
    some {
      icao24 := pyLower icao24
      callsign := (history.getLast?).bind fun h => h.callsign
      total_samples := history.length
      window_samples := (mask.filter id).length
      altitude := compute_rolling_stats min_samples
        (history.map fun h => h.baro_altitude) mask
      speed := compute_rolling_stats min_samples
        (history.map fun h => h.velocity) mask
      vertical_rate := compute_rolling_stats min_samples
        (history.map fun h => h.vertical_rate) mask
      heading := compute_rolling_stats min_samples
        (history.map fun h => h.true_track) mask
      altitude_trend := compute_trend min_samples trend_threshold
        (applyMask timestamps mask)
        (applyMask (history.map fun h => h.baro_altitude) mask)
      speed_trend := compute_trend min_samples trend_threshold
        (applyMask timestamps mask)
        (applyMask (history.map fun h => h.velocity) mask) }

/-- C7: `analyze_flight` returns absent whenever the fetched history has
fewer than `min_samples` records; and rolling stats for a metric exist
exactly when at least `min_samples` valid (non-NaN) samples lie inside the
window — with the produced count equal to that number of valid samples
(never a defaulted zero). -/
theorem C7_min_samples_guards :
    (∀ (m : ℕ) (w thr now : ℚ) icao24 history, history.length < m →
      analyze_flight m w thr now icao24 history = none) ∧
    (∀ (m : ℕ) (w thr now : ℚ) icao24,
      analyze_flight m w thr now icao24 [] = none) ∧
    (∀ (m : ℕ) values mask,
      compute_rolling_stats m values mask = none ↔
        ((applyMask values mask).filterMap id).length < m) ∧
    (∀ (m : ℕ) values mask s, compute_rolling_stats m values mask = some s →
      s.count = ((applyMask values mask).filterMap id).length ∧ m ≤ s.count) ∧
    compute_rolling_stats 5 [some 1000, none, some 1010, some 1020]
      [true, true, true, false] = none := by
  refine ⟨fun m w thr now icao24 history h => ?_, fun m w thr now icao24 => ?_,
    fun m values mask => ?_, fun m values mask s hs => ?_, rfl⟩
  · rw [analyze_flight]
    simp [h]
  · rw [analyze_flight]
    simp
  · rw [compute_rolling_stats]
    by_cases h : ((applyMask values mask).filterMap id).length < m
    · simp [h]
    · simp [h]
  · rw [compute_rolling_stats] at hs
    by_cases h : ((applyMask values mask).filterMap id).length < m
    · simp [h] at hs
    · simp only [h, if_neg h] at hs
      cases hs.symm
      exact ⟨rfl, le_of_not_lt h⟩

/-! ## Raw frame parsing (`opensky_client.StateVector.from_array`,
`OpenSkyClient.get_states`) -/

/-- A dynamically-typed JSON value of a raw OpenSky state array (the types
the API actually sends: null, string, number, boolean). -/
inductive PyVal where
  | pynull
  | pystr (s : String)
  | pynum (q : ℚ)
  | pybool (b : Bool)
deriving Repr, DecidableEq

/-- Python truthiness of a raw value. -/
def PyVal.truthy : PyVal → Bool
  | .pynull => false
  | .pystr s => s != ""
  | .pynum q => q != 0
  | .pybool b => b

/-- A raw field read into an optional string (non-strings modelled as
absent). -/
def PyVal.asStr : PyVal → Option String
  | .pystr s => some s
  | _ => none

/-- A raw field read into an optional number. -/
def PyVal.asNum : PyVal → Option ℚ
  | .pynum q => some q
  | _ => none

/-- The callsign normalization of `from_array`:
`if callsign: callsign = callsign.strip() or None`.  A falsy callsign is
stored **as-is**, so an empty-string callsign remains the empty string
rather than becoming absent; only a whitespace-only callsign strips to empty
and becomes absent.  (A truthy non-string would fault on `.strip()` in the
source; modelled as absent.) -/
def parseCallsign : PyVal → Option String
  | .pystr s =>
    if s == "" then some ""
    else if pyStrip s == "" then none
    else some (pyStrip s)
  | _ => none

/-- `StateVector.from_array`: `None` for a short array (fewer than 17
fields) or a falsy/non-string object id; otherwise the typed frame with the
id lowercased. -/
def StateVector.from_array (arr : List PyVal) : Option StateVector :=
  if arr.length < 17 then none
  else
    match arr.getD 0 .pynull with
    | .pystr s =>
      if s = "" then none
      else
        some {
          icao24 := pyLower s
          callsign := parseCallsign (arr.getD 1 .pynull)
          origin_country := (arr.getD 2 .pynull).asStr
          time_position := (arr.getD 3 .pynull).asNum
          last_contact := (arr.getD 4 .pynull).asNum
          longitude := (arr.getD 5 .pynull).asNum
          latitude := (arr.getD 6 .pynull).asNum
          baro_altitude := (arr.getD 7 .pynull).asNum
          on_ground := (arr.getD 8 .pynull).truthy
          velocity := (arr.getD 9 .pynull).asNum
          true_track := (arr.getD 10 .pynull).asNum
          vertical_rate := (arr.getD 11 .pynull).asNum
          geo_altitude := (arr.getD 13 .pynull).asNum
          squawk := (arr.getD 14 .pynull).asStr
          spi := (arr.getD 15 .pynull).truthy
          position_source := (arr.getD 16 .pynull).asNum }
    | _ => none

/-- The parse-and-filter stage of `OpenSkyClient.get_states`: parse each raw
array and keep only the frames that parse and satisfy `has_position`. -/
def get_states_frames (states_raw : List (List PyVal)) : List StateVector :=
  states_raw.filterMap fun arr =>
    match StateVector.from_array arr with
    | some sv => if sv.has_position then some sv else none
    | none => none

/-- A concrete raw 17-field array whose callsign is the empty string. -/
def emptyCallsignArr : List PyVal :=
  [.pystr "ABC123", .pystr "", .pystr "United States", .pynull, .pynum 1700000000,
   .pynum (-74), .pynum 40, .pynum 10000, .pybool false, .pynum 200, .pynum 90,
   .pynum 3, .pynull, .pynum 10100, .pystr "7000", .pybool false, .pynum 0]

/-- C8 counterexample: a well-formed 17-field frame whose raw callsign is the
empty string parses to a frame whose callsign **is the empty string**, not
absent — the `if callsign:` truthiness guard skips normalization for a falsy
callsign, refuting "empty strings become absent". -/
theorem C8_empty_callsign_counterexample :
    (StateVector.from_array emptyCallsignArr).map (fun sv => sv.callsign) =
      some (some "") ∧
    decide ((some "" : Option String) = none) = false := ⟨rfl, rfl⟩

/-- C8 (amended): parsing rejects short arrays and missing/empty/non-string
ids; a parsed frame's id is lowercased; a **non-empty** callsign is trimmed,
becoming absent when whitespace-only, while an already-empty callsign string
is kept as the empty string (and an absent callsign stays absent); and every
frame `get_states` returns has both coordinates present. -/
theorem C8_parse_and_filter :
    (∀ arr, arr.length < 17 → StateVector.from_array arr = none) ∧
    (∀ arr, (match arr.getD 0 PyVal.pynull with
             | .pystr s => s = ""
             | _ => True) → StateVector.from_array arr = none) ∧
    (∀ arr sv, StateVector.from_array arr = some sv →
      ∃ s, arr.getD 0 PyVal.pynull = .pystr s ∧ s ≠ "" ∧
        sv.icao24 = pyLower s ∧
        sv.callsign = parseCallsign (arr.getD 1 PyVal.pynull)) ∧
    (∀ s, s ≠ "" →
      parseCallsign (.pystr s) =
        (if pyStrip s = "" then none else some (pyStrip s))) ∧
    parseCallsign (.pystr "") = some "" ∧
    parseCallsign .pynull = none ∧
    parseCallsign (.pystr " AAL123 ") = some "AAL123" ∧
    parseCallsign (.pystr "   ") = none ∧
    (∀ raw sv, sv ∈ get_states_frames raw →
      sv.latitude.isSome = true ∧ sv.longitude.isSome = true) := by
  refine ⟨fun arr h => ?_, fun arr h => ?_, fun arr sv h => ?_,
    fun s hs => ?_, rfl, rfl, rfl, rfl, fun raw sv h => ?_⟩
  · rw [StateVector.from_array]
    simp [h]
  · rw [StateVector.from_array]
    rcases h0 : arr.getD 0 PyVal.pynull with _ | s | q | b <;>
      simp [h0] <;> rw [h0] at h <;> simp_all
  · rw [StateVector.from_array] at h
    by_cases hlen : arr.length < 17
    · simp [hlen] at h
    · rcases h0 : arr.getD 0 PyVal.pynull with _ | s | q | b <;>
        rw [if_neg hlen] at h <;> rw [h0] at h <;> try simp at h
      obtain ⟨hs, hsv⟩ := h
      cases hsv
      refine ⟨s, rfl, hs, rfl, ?_⟩
      simp [List.getD]
  · rw [parseCallsign]
    simp [hs]
  · rw [get_states_frames] at h
    rcases List.mem_filterMap.mp h with ⟨arr, _, harr⟩
    rcases hp : StateVector.from_array arr with _ | sv2
    · rw [hp] at harr
      simp at harr
    · rw [hp] at harr
      dsimp only at harr
      by_cases hpos : sv2.has_position = true
      · rw [if_pos hpos] at harr
        cases Option.some_inj.mp harr
        rw [StateVector.has_position] at hpos
        constructor
        · exact ((Bool.and_eq_true _ _).mp hpos).1
        · exact ((Bool.and_eq_true _ _).mp hpos).2
      · rw [if_neg hpos] at harr
        simp at harr

/-! ## Bounding box (`opensky_client.BoundingBox`) -/

/-- `opensky_client.cos_deg`: cosine of an angle given in degrees. -/
noncomputable def cos_deg (degrees : ℝ) : ℝ := Real.cos (radians degrees)

/-- `opensky_client.BoundingBox`. -/
structure BoundingBox where
  lat_min : ℝ
  lat_max : ℝ
  lon_min : ℝ
  lon_max : ℝ

/-- `BoundingBox.from_center_radius`: latitude delta `radius / 111`,
longitude delta `radius / (111 * |cos_deg center_lat|)`. -/
noncomputable def BoundingBox.from_center_radius
    (center_lat center_lon radius_km : ℝ) : BoundingBox :=
  let lat_delta := radius_km / 111
  let lon_delta := radius_km / (111 * |cos_deg center_lat|)
  { lat_min := center_lat - lat_delta
    lat_max := center_lat + lat_delta
    lon_min := center_lon - lon_delta
    lon_max := center_lon + lon_delta }

/-- C9: the box edges are exactly `center ∓ radius/111` in latitude and
`center ∓ radius/(111·|cos(center_lat°)|)` in longitude; for center
(40, −74) and radius 100 km the latitude edges are within 0.05 of 39.1 and
40.9, and the longitude delta is strictly wider than the latitude delta. -/
theorem C9_bounding_box :
    (∀ la lo r : ℝ,
      (BoundingBox.from_center_radius la lo r).lat_min = la - r / 111 ∧
      (BoundingBox.from_center_radius la lo r).lat_max = la + r / 111 ∧
      (BoundingBox.from_center_radius la lo r).lon_min =
        lo - r / (111 * |cos_deg la|) ∧
      (BoundingBox.from_center_radius la lo r).lon_max =
        lo + r / (111 * |cos_deg la|)) ∧
    |(BoundingBox.from_center_radius 40 (-74) 100).lat_min - 39.1| < 0.05 ∧
    |(BoundingBox.from_center_radius 40 (-74) 100).lat_max - 40.9| < 0.05 ∧
    (BoundingBox.from_center_radius 40 (-74) 100).lon_max -
        (BoundingBox.from_center_radius 40 (-74) 100).lon_min >
      (BoundingBox.from_center_radius 40 (-74) 100).lat_max -
        (BoundingBox.from_center_radius 40 (-74) 100).lat_min := by
  have hc_pos : 0 < cos_deg 40 := by
    rw [cos_deg, radians]
    apply Real.cos_pos_of_mem_Ioo
    constructor
    · nlinarith [Real.pi_pos]
    · nlinarith [Real.pi_pos]
  have hc_lt : cos_deg 40 < 1 := by
    rw [cos_deg, radians]
    calc Real.cos (40 * Real.pi / 180) < Real.cos 0 :=
          Real.cos_lt_cos_of_nonneg_of_le_pi le_rfl
            (by nlinarith [Real.pi_pos]) (by nlinarith [Real.pi_pos])
      _ = 1 := Real.cos_zero
  have habs : |cos_deg 40| = cos_deg 40 := abs_of_pos hc_pos
  refine ⟨fun la lo r => ⟨rfl, rfl, rfl, rfl⟩, ?_, ?_, ?_⟩
  · have hlm : (BoundingBox.from_center_radius 40 (-74) 100).lat_min =
        40 - 100 / 111 := rfl
    rw [hlm, abs_lt]
    constructor <;> norm_num
  · have hlm : (BoundingBox.from_center_radius 40 (-74) 100).lat_max =
        40 + 100 / 111 := rfl
    rw [hlm, abs_lt]
    constructor <;> norm_num
  · have h1 : (BoundingBox.from_center_radius 40 (-74) 100).lon_max -
        (BoundingBox.from_center_radius 40 (-74) 100).lon_min =
        2 * (100 / (111 * |cos_deg 40|)) := by
      show (-74 : ℝ) + 100 / (111 * |cos_deg 40|) -
          ((-74 : ℝ) - 100 / (111 * |cos_deg 40|)) = _
      ring
    have h2 : (BoundingBox.from_center_radius 40 (-74) 100).lat_max -
        (BoundingBox.from_center_radius 40 (-74) 100).lat_min =
        2 * ((100 : ℝ) / 111) := by
      show (40 : ℝ) + 100 / 111 - ((40 : ℝ) - 100 / 111) = _
      ring
    have hdelta : (100 : ℝ) / 111 < 100 / (111 * |cos_deg 40|) := by
      rw [habs]
      apply div_lt_div_of_pos_left (by norm_num) (by positivity)
      nlinarith [hc_pos, hc_lt]
    rw [h1, h2]
    linarith [hdelta]

end Flightwall
